import Mathlib

/-!
Verification of the storage layer of the `indexed-db-example` repository:
the `DatabaseManager` connection manager and the `UserPreferencesStoreManager`
collection store, shallowly embedded from the JavaScript source.

Conventions of the embedding:
* The IndexedDB object store backing `userPreferences` is a list of records,
  keyed (per the declared `keyPath: 'username'`) by the `username` field;
  `put` is insert-or-replace on that key, `get` is lookup.
* Asynchronous JavaScript within one tab is single-threaded and cooperative,
  so each operation is a function on an explicit state; promise settlement is
  first-call-wins (a promise, once resolved or rejected, ignores later calls).
* JavaScript values appearing in preference maps are modelled by `JsValue`;
  the `?? null` sentinel is `JsValue.vnull`.
-/

namespace IDB

/-- JavaScript values stored in a preference map; `vnull` is the null sentinel
returned by `get` for a missing record or field. -/
inductive JsValue where
  | vnull
  | num (n : Int)
  | str (s : String)
  deriving DecidableEq, Repr

/-- One record of the `userPreferences` object store, shaped
`{ username: string, value: { [key]: any } }` as written by
`UserPreferencesStoreManager.set`. The `value` map is an association list
with the usual JavaScript object-literal reading (unique keys). -/
structure PrefRecord where
  username : String
  value : List (String × JsValue)
  deriving DecidableEq, Repr

/-- Contents of the `userPreferences` object store. Its declared primary key
is the `username` field (`keyPath: 'username'`). -/
abbrev Store := List PrefRecord

/-- Lookup in a JavaScript object (`obj?.[key]`), as an association list. -/
def assocLookup (l : List (String × JsValue)) (k : String) : Option JsValue :=
  (l.find? (fun p => p.1 = k)).map Prod.snd

/-- `store.get(key)` inside `DatabaseManager.getStoreValue`: returns the record
whose primary-key field equals `key`, or `undefined` (here `none`). -/
def storeGet (st : Store) (key : String) : Option PrefRecord :=
  st.find? (fun r => r.username = key)

/-- `store.put(value)` inside `DatabaseManager.setStoreValue`: IndexedDB put is
insert-or-replace keyed by the store's key path (`username`); the stored record
for that key, if any, is replaced wholesale by `rec`. -/
def storePut (st : Store) (rec : PrefRecord) : Store :=
  rec :: st.filter (fun r => ¬ r.username = rec.username)

/-- `UserPreferencesStoreManager.get(key)` on the success path:
`getStoreValue(storeName, username)` followed by
`userPreferences?.value?.[key] ?? null`. Total by construction: a missing
record or field yields the `vnull` sentinel, never an error. -/
def prefsGet (username : String) (key : String) (st : Store) : JsValue :=
  match storeGet st username with
  | none => JsValue.vnull
  | some rec => (assocLookup rec.value key).getD JsValue.vnull

/-- `UserPreferencesStoreManager.set(value)` on the success path:
`setStoreValue(storeName, { username, value })`, i.e. a put of the record
`{ username, value }` — the previously stored `value` map for this owner is
replaced, not merged. -/
def prefsSet (username : String) (value : List (String × JsValue)) (st : Store) : Store :=
  storePut st { username := username, value := value }

/-! ### Connection manager state (`DatabaseManager`) -/

/-- The per-tab mutable state of a `DatabaseManager`, restricted to the fields
the claims are about. Connections handed out by the environment are numbered;
`nextConn` is the next fresh number. `openCount` counts `indexedDB.open`
requests issued, `closedConns` records connections on which `close()` was
called, `listenerCount` is the size of `versionChangeListeners`, and
`listenerCalls` the total number of listener invocations so far. -/
structure ConnState where
  db : Option Nat
  isInit : Bool
  connPromise : Option Nat
  nextConn : Nat
  openCount : Nat
  closedConns : List Nat
  listenerCount : Nat
  listenerCalls : Nat
  deriving DecidableEq, Repr

/-- `DatabaseManager.initialize()` on the success path. If
`this._connectionPromise` is non-null the same promise is returned to the
caller and nothing else happens (request coalescing); otherwise one
`indexedDB.open` request is issued, and on success `this.db` is set and the
promise resolves with the fresh connection. -/
def openDb (s : ConnState) : Nat × ConnState :=
  match s.connPromise with
  | some p => (p, s)
  | none =>
      (s.nextConn,
       { s with db := some s.nextConn, isInit := true,
                connPromise := some s.nextConn,
                nextConn := s.nextConn + 1,
                openCount := s.openCount + 1 })

/-- `N` calls to `initialize()` in sequence (within one tab, JavaScript runs
each call's synchronous body to completion before the next), collecting the
promise each caller observes. -/
def openDbN : Nat → ConnState → List Nat × ConnState
  | 0, s => ([], s)
  | n + 1, s =>
      let r := openDb s
      let rest := openDbN n r.2
      (r.1 :: rest.1, rest.2)

/-- `DatabaseManager._handleVersionChange()`: on a cross-tab VERSION_CHANGE
message, if a connection is open, invoke every registered version-change
listener, close the stale connection, reset `db` / `isInitialized` /
`_connectionPromise`, and await `initialize()`. -/
def handleVersionChange (s : ConnState) : ConnState :=
  match s.db with
  | none => s
  | some c =>
      (openDb { s with
                  listenerCalls := s.listenerCalls + s.listenerCount,
                  closedConns := c :: s.closedConns,
                  db := none, isInit := false, connPromise := none }).2

/-! ### Retry logic (`DatabaseManager._retryConnection` / `transaction`) -/

/-- The retry-relevant fields of `DatabaseManager`. The constructor sets
`connectionRetryCount = 0` and `maxRetries = 3`; `this.retryDelay` is never
assigned anywhere in the class, so it is `undefined`, modelled as `none`. -/
structure RetryState where
  connectionRetryCount : Nat
  maxRetries : Nat
  retryDelay : Option Nat
  deriving DecidableEq, Repr

/-- The state a fresh `DatabaseManager` carries into its first `transaction`
call: `connectionRetryCount = 0`, `maxRetries = 3`, `retryDelay` undefined. -/
def initRetryState : RetryState :=
  { connectionRetryCount := 0, maxRetries := 3, retryDelay := none }

/-- `DatabaseManager._retryConnection()`: throws `'Max retry attempts reached
for database connection'` when `connectionRetryCount >= maxRetries`; otherwise
increments the counter, waits `this.retryDelay * this.connectionRetryCount`
(`undefined * n` is `NaN`, modelled `none`), then resets the connection state
— including `connectionRetryCount = 0` — and re-initializes. Returns the
backoff delay it waited alongside the successor state. -/
def retryConnection (s : RetryState) : Except Unit (Option Nat × RetryState) :=
  if s.maxRetries ≤ s.connectionRetryCount then
    Except.error ()
  else
    let c := s.connectionRetryCount + 1
    let delay := s.retryDelay.map (fun d => d * c)
    Except.ok (delay, { s with connectionRetryCount := 0 })

/-- Possible outcomes of `DatabaseManager.transaction` under the simulation
below. `maxRetriesReached` is the `ConnectionExhausted` failure
(`'Max retry attempts reached for database connection'`); `fuelExhausted` is a
model artifact marking that the recursion had not terminated within `fuel`
iterations. -/
inductive TxResult where
  | tx
  | maxRetriesReached
  | fuelExhausted
  deriving DecidableEq, Repr

/-- `DatabaseManager.transaction` when every attempt fails with a
stale-connection error (`InvalidStateError` / connection lost): each iteration
enters the catch block, calls `_retryConnection()`, and re-invokes
`transaction`. Returns the outcome and the list of backoff delays waited, in
order. `fuel` bounds the number of iterations simulated. -/
def transactionAllStale : Nat → RetryState → TxResult × List (Option Nat)
  | 0, _ => (TxResult.fuelExhausted, [])
  | fuel + 1, s =>
      match retryConnection s with
      | Except.error _ => (TxResult.maxRetriesReached, [])
      | Except.ok (d, s') =>
          let r := transactionAllStale fuel s'
          (r.1, d :: r.2)

/-! ### Promise settlement of `getStoreValue` / `setStoreValue` -/

/-- Events the IndexedDB engine dispatches to the handlers the two wrappers
register. In a successful operation the request's `success` event fires
strictly before the transaction's `complete` event. -/
inductive DbEvent where
  | requestSuccess
  | requestError
  | transactionComplete
  | transactionError
  | transactionAbort
  deriving DecidableEq, Repr

/-- How a settled promise ended. -/
inductive Settled where
  | resolved
  | rejected
  deriving DecidableEq, Repr

/-- The one resolve handler and one reject handler a wrapper's promise executor
registers. -/
structure PromiseHandlers where
  resolveOn : DbEvent
  rejectOn : DbEvent
  deriving DecidableEq, Repr

/-- Handler registrations in `DatabaseManager.getStoreValue`:
`request.onsuccess = () => resolve(request.result)` and
`request.onerror = () => reject(request.error)`. -/
def getStoreValueHandlers : PromiseHandlers :=
  { resolveOn := DbEvent.requestSuccess, rejectOn := DbEvent.requestError }

/-- Handler registrations in `DatabaseManager.setStoreValue`:
`transaction.oncomplete = () => resolve(request)` and
`transaction.onerror = () => reject(transaction.error)`. -/
def setStoreValueHandlers : PromiseHandlers :=
  { resolveOn := DbEvent.transactionComplete, rejectOn := DbEvent.transactionError }

/-- A promise settles at the first event of the dispatch trace that one of its
handlers reacts to; later events cannot re-settle it. Returns the index of the
settling event and how the promise settled. -/
def settleAt (h : PromiseHandlers) : List DbEvent → Option (Nat × Settled)
  | [] => none
  | e :: rest =>
      if e = h.resolveOn then some (0, Settled.resolved)
      else if e = h.rejectOn then some (0, Settled.rejected)
      else
        match settleAt h rest with
        | none => none
        | some (i, w) => some (i + 1, w)

/-- Event order of one successful get/put: the request succeeds, then the
transaction completes. -/
def successTrace : List DbEvent :=
  [DbEvent.requestSuccess, DbEvent.transactionComplete]

/-! ### Promise settlement of `DatabaseManager.transaction` -/

/-- Calls made on the promise returned by `DatabaseManager.transaction`. -/
inductive TxPromiseAction where
  | resolveTx
  | rejectAborted
  | rejectError
  deriving DecidableEq, Repr

/-- The settlement calls the `transaction()` promise receives: its executor
runs synchronously, registers `transaction.onerror` / `transaction.onabort`,
and then immediately calls `resolve(transaction)`; any transaction events are
dispatched from the event loop only after the executor has returned, so their
reject calls come strictly later in the sequence. -/
def transactionActions (events : List DbEvent) : List TxPromiseAction :=
  TxPromiseAction.resolveTx ::
    events.filterMap (fun e =>
      match e with
      | DbEvent.transactionAbort => some TxPromiseAction.rejectAborted
      | DbEvent.transactionError => some TxPromiseAction.rejectError
      | _ => none)

/-- A promise is settled by the first resolve/reject call it receives; all
later calls are ignored. -/
def txOutcome (events : List DbEvent) : Option TxPromiseAction :=
  (transactionActions events).head?

/-! ### Schema upgrades (`DatabaseManager.createObjectStore`) -/

/-- The on-disk database: its current version and the names of its object
stores. -/
structure BackingDb where
  version : Nat
  stores : List String
  deriving DecidableEq, Repr

/-- The `onupgradeneeded` handler of `createObjectStore`: create the store
only if `db.objectStoreNames` does not already contain it. -/
def upgradeAddStore (storeName : String) (b : BackingDb) : BackingDb :=
  if storeName ∈ b.stores then b else { b with stores := storeName :: b.stores }

/-- `indexedDB.open(name, v)` against a database currently at `b.version`:
requesting a lower version fails with `VersionError`; a higher version runs
the upgrade handler and sets the version to `v`; an equal version opens
without upgrading. -/
def openWithVersion (upgrade : BackingDb → BackingDb) (v : Nat) (b : BackingDb) :
    Except String BackingDb :=
  if v < b.version then Except.error "VersionError"
  else if b.version < v then
    let b' := upgrade b
    Except.ok { b' with version := v }
  else Except.ok b

/-- A `DatabaseManager` together with the on-disk database it manages:
`db` is the open connection handle (`this.db`, `none` when null), holding the
snapshot it was opened against; `backing` is the on-disk state. -/
structure MgrState where
  db : Option BackingDb
  backing : BackingDb
  deriving DecidableEq, Repr

/-- `DatabaseManager.createObjectStore(storeName, options)`: reads
`currentVersion` from `this.db` (0 when null), closes any current connection,
re-opens at `currentVersion + 1` with an upgrade handler that creates the
store if absent, and on success stores the refreshed connection. -/
def createObjectStore (storeName : String) (s : MgrState) : Except String MgrState :=
  let currentVersion := match s.db with | some d => d.version | none => 0
  let newVersion := currentVersion + 1
  match openWithVersion (upgradeAddStore storeName) newVersion s.backing with
  | Except.error e => Except.error e
  | Except.ok b => Except.ok { db := some b, backing := b }

/-! ### `UserPreferencesStoreManager` construction -/

/-- The fields of a constructed `UserPreferencesStoreManager` the claims are
about. -/
structure UPSM where
  username : String
  isInit : Bool
  storeName : String
  deriving DecidableEq, Repr

/-- JavaScript falsiness of the `username` argument, which is either absent
(`undefined` / `null`, modelled `none`) or a string: `!username` is true
exactly for an absent value or the empty string. -/
def jsFalsy : Option String → Bool
  | none => true
  | some s => s.isEmpty

/-- `new UserPreferencesStoreManager(username)`: throws
`'Username is required'` when `!username`; otherwise records the username,
`isInitialized = false`, and the fixed store name `'userPreferences'`. -/
def mkStoreManager (u : Option String) : Except String UPSM :=
  if jsFalsy u then Except.error "Username is required"
  else Except.ok { username := u.getD "", isInit := false, storeName := "userPreferences" }

/-- `UserPreferencesStoreManager.getInstance(username)`: constructs a new
instance when there is no cached instance or the cached instance's username
differs from the argument; otherwise returns the cached instance. -/
def getInstanceUPSM (cached : Option UPSM) (u : Option String) : Except String UPSM :=
  match cached with
  | some m => if u = some m.username then Except.ok m else mkStoreManager u
  | none => mkStoreManager u

/-! ### Demo states used by witnesses -/

/-- A tab whose manager holds open connection 5, with two registered
version-change listeners. -/
def demoTab : ConnState :=
  { db := some 5, isInit := true, connPromise := some 5, nextConn := 6,
    openCount := 1, closedConns := [], listenerCount := 2, listenerCalls := 0 }

/-- A fresh, unconnected manager state. -/
def freshConn : ConnState :=
  { db := none, isInit := false, connPromise := none, nextConn := 0,
    openCount := 0, closedConns := [], listenerCount := 0, listenerCalls := 0 }

/-- A connected manager over a version-2 database that already contains the
`userPreferences` store. -/
def demoMgr : MgrState :=
  { db := some { version := 2, stores := ["userPreferences"] },
    backing := { version := 2, stores := ["userPreferences"] } }

/-! ## Helper lemmas -/

/-- A put record is found again under its own key. -/
theorem storeGet_put_self (st : Store) (u : String) (m : List (String × JsValue)) :
    storeGet (storePut st ⟨u, m⟩) u = some ⟨u, m⟩ := by
  simp [storeGet, storePut]

/-- A put under one key leaves lookups under any other key unchanged. -/
theorem storeGet_put_other (st : Store) (rec : PrefRecord) (u : String)
    (h : u ≠ rec.username) :
    storeGet (storePut st rec) u = storeGet st u := by
  unfold storeGet storePut
  rw [List.find?_cons_of_neg _ (by simpa using Ne.symm h)]
  induction st with
  | nil => rfl
  | cons a l ih =>
      by_cases ha : a.username = rec.username
      · rw [List.filter_cons_of_neg (by simp [ha]),
          List.find?_cons_of_neg _ (by simpa [ha] using Ne.symm h), ih]
      · rw [List.filter_cons_of_pos (by simp [ha])]
        by_cases hu : a.username = u
        · rw [List.find?_cons_of_pos _ (by simp [hu]),
            List.find?_cons_of_pos _ (by simp [hu])]
        · rw [List.find?_cons_of_neg _ (by simp [hu]),
            List.find?_cons_of_neg _ (by simp [hu]), ih]

/-! ## Claims about the preference store -/

/-- Claim C9: records are keyed by owner identifier, so a `set` under owner A
never changes a subsequent `get` under a different owner B, for any field
key and any written map. -/
theorem claim_C9_owner_isolation (st : Store) (A B k : String)
    (m : List (String × JsValue)) (h : A ≠ B) :
    prefsGet B k (prefsSet A m st) = prefsGet B k st := by
  unfold prefsGet prefsSet
  rw [storeGet_put_other st ⟨A, m⟩ B (fun hh => h hh.symm)]

/-- Witness for C9 at concrete owners alice ≠ bob. -/
theorem claim_C9_owner_isolation_witness :
    prefsGet "bob" "k" (prefsSet "alice" [("k", JsValue.num 1)] []) =
      prefsGet "bob" "k" [] :=
  claim_C9_owner_isolation [] "alice" "bob" "k" [("k", JsValue.num 1)] (by decide)

/-- Claim C4: `set({k: v})` then `get(k)` returns `v`; and whenever the owner
has no record, or the record's value map has no entry for the key, `get`
returns the `vnull` sentinel (and, `prefsGet` being a total function into
`JsValue`, it never throws). -/
theorem claim_C4_roundtrip_and_null_sentinel :
    (∀ (st : Store) (u k : String) (v : JsValue),
        prefsGet u k (prefsSet u [(k, v)] st) = v) ∧
    (∀ (st : Store) (u k : String),
        (storeGet st u).bind (fun r => assocLookup r.value k) = none →
        prefsGet u k st = JsValue.vnull) := by
  constructor
  · intro st u k v
    unfold prefsGet prefsSet
    rw [storeGet_put_self]
    simp [assocLookup]
  · intro st u k h
    unfold prefsGet
    cases hg : storeGet st u with
    | none => rfl
    | some rec =>
        rw [hg] at h
        have h' : assocLookup rec.value k = none := h
        show (assocLookup rec.value k).getD JsValue.vnull = JsValue.vnull
        rw [h']
        rfl

/-- Witness for C4: round-trip of `{k: 7}` for owner DEFAULT, and the sentinel
on the empty store. -/
theorem claim_C4_roundtrip_and_null_sentinel_witness :
    prefsGet "DEFAULT" "k" (prefsSet "DEFAULT" [("k", JsValue.num 7)] []) =
      JsValue.num 7 ∧
    prefsGet "DEFAULT" "missing" [] = JsValue.vnull :=
  ⟨claim_C4_roundtrip_and_null_sentinel.1 [] "DEFAULT" "k" (JsValue.num 7),
   claim_C4_roundtrip_and_null_sentinel.2 [] "DEFAULT" "missing" (by decide)⟩

/-- Counterexample to claim C2: `set({a:1})` then `set({b:2})` then `get('a')`
returns the null sentinel, not `1` — the second `set` replaced the owner's
record instead of merging into it. -/
theorem claim_C2_counterexample :
    prefsGet "DEFAULT" "a"
        (prefsSet "DEFAULT" [("b", JsValue.num 2)]
          (prefsSet "DEFAULT" [("a", JsValue.num 1)] [])) = JsValue.vnull ∧
    JsValue.vnull ≠ JsValue.num 1 := by
  constructor
  · decide
  · decide

/-- Claim C2 as amended: `set(m2)` replaces the owner's stored record, so
after `set(m1)` then `set(m2)` a `get` of any key absent from `m2` returns
the null sentinel, whatever `m1` contained. -/
theorem claim_C2_amended_set_replaces (st : Store) (u k : String)
    (m1 m2 : List (String × JsValue)) (h : assocLookup m2 k = none) :
    prefsGet u k (prefsSet u m2 (prefsSet u m1 st)) = JsValue.vnull := by
  unfold prefsGet prefsSet
  rw [storeGet_put_self]
  show (assocLookup m2 k).getD JsValue.vnull = JsValue.vnull
  rw [h]
  rfl

/-- Witness for the amended C2 at the spec's own example maps. -/
theorem claim_C2_amended_set_replaces_witness :
    prefsGet "DEFAULT" "a"
        (prefsSet "DEFAULT" [("b", JsValue.num 2)]
          (prefsSet "DEFAULT" [("a", JsValue.num 1)] [])) = JsValue.vnull :=
  claim_C2_amended_set_replaces [] "DEFAULT" "a"
    [("a", JsValue.num 1)] [("b", JsValue.num 2)] (by decide)

/-! ## Claims about the connection manager -/

/-- Once a connection promise is cached, further `initialize()` calls return
it unchanged: no new open request, same promise for every caller. -/
theorem openDbN_cached (n : Nat) (s : ConnState) (p : Nat)
    (h : s.connPromise = some p) :
    openDbN n s = (List.replicate n p, s) := by
  induction n with
  | zero => rfl
  | succ m ih => simp [openDbN, openDb, h, ih, List.replicate]

/-- Claim C3: `initialize()` coalesces requests — starting from a state with
no connection promise, `N ≥ 1` back-to-back calls issue exactly one
`indexedDB.open` request, and every caller observes the same promised
connection. -/
theorem claim_C3_request_coalescing (s : ConnState) (N : Nat)
    (h1 : 1 ≤ N) (h2 : s.connPromise = none) :
    (openDbN N s).2.openCount = s.openCount + 1 ∧
    (openDbN N s).1 = List.replicate N s.nextConn := by
  cases N with
  | zero => exact absurd h1 (by decide)
  | succ m =>
      have hs : (openDb s).2.connPromise = some s.nextConn := by
        simp [openDb, h2]
      have hfst : (openDb s).1 = s.nextConn := by
        simp [openDb, h2]
      have hoc : (openDb s).2.openCount = s.openCount + 1 := by
        simp [openDb, h2]
      have hrest := openDbN_cached m (openDb s).2 s.nextConn hs
      constructor
      · show (openDbN m (openDb s).2).2.openCount = s.openCount + 1
        rw [hrest]
        exact hoc
      · show (openDb s).1 :: (openDbN m (openDb s).2).1 = List.replicate (m + 1) s.nextConn
        rw [hrest, hfst]
        rfl

/-- Witness for C3: three calls on a fresh manager issue one open and all
three callers get connection 0. -/
theorem claim_C3_request_coalescing_witness :
    (openDbN 3 freshConn).2.openCount = freshConn.openCount + 1 ∧
    (openDbN 3 freshConn).1 = List.replicate 3 freshConn.nextConn :=
  claim_C3_request_coalescing freshConn 3 (by decide) rfl

/-- Claim C8: when a VERSION_CHANGE broadcast reaches a tab whose manager
holds an open connection, the handler invokes every registered version-change
listener, closes the stale connection, resets the connection state, and
re-initializes, so the post-state holds a fresh initialized connection before
any next operation runs. -/
theorem claim_C8_cross_tab_version_change (s : ConnState) (c : Nat)
    (h : s.db = some c) :
    (handleVersionChange s).listenerCalls = s.listenerCalls + s.listenerCount ∧
    c ∈ (handleVersionChange s).closedConns ∧
    (handleVersionChange s).db = some s.nextConn ∧
    (handleVersionChange s).isInit = true ∧
    (handleVersionChange s).connPromise = some s.nextConn := by
  simp [handleVersionChange, openDb, h]

/-- Witness for C8 at `demoTab`: connection 5 is closed, both listeners fire,
and a fresh connection 6 is open and initialized afterwards. -/
theorem claim_C8_cross_tab_version_change_witness :
    (handleVersionChange demoTab).listenerCalls =
      demoTab.listenerCalls + demoTab.listenerCount ∧
    5 ∈ (handleVersionChange demoTab).closedConns ∧
    (handleVersionChange demoTab).db = some demoTab.nextConn ∧
    (handleVersionChange demoTab).isInit = true ∧
    (handleVersionChange demoTab).connPromise = some demoTab.nextConn :=
  claim_C8_cross_tab_version_change demoTab 5 rfl

/-- Claim C1 refuted by the code: under a stale-connection error on every
attempt, `transaction` never fails with the ConnectionExhausted error
(`'Max retry attempts reached for database connection'`), however many
iterations are simulated — `_retryConnection` resets `connectionRetryCount`
to 0 before re-initializing, so the `maxRetries` guard never fires — and
every backoff delay is `this.retryDelay * n` with `retryDelay` undefined
(`none`, i.e. `NaN`), not a strictly increasing `baseDelay × attemptNumber`
sequence. -/
theorem claim_C1_retry_never_exhausts :
    ∀ fuel : Nat,
      transactionAllStale fuel initRetryState =
        (TxResult.fuelExhausted, List.replicate fuel none) ∧
      (transactionAllStale fuel initRetryState).1 ≠ TxResult.maxRetriesReached := by
  intro fuel
  have key : transactionAllStale fuel initRetryState =
      (TxResult.fuelExhausted, List.replicate fuel none) := by
    induction fuel with
    | zero => rfl
    | succ m ih =>
        have hr : retryConnection initRetryState =
            Except.ok (none, initRetryState) := rfl
        simp [transactionAllStale, hr, ih, List.replicate]
  exact ⟨key, by rw [key]; intro hc; cases hc⟩

/-! ## Claims about promise settlement of the wrappers -/

/-- If a promise with handlers `h` settles resolved at index `i` of the
dispatch trace, the event at index `i` is the one its resolve handler was
registered for. -/
theorem settleAt_resolved_event (h : PromiseHandlers) (evs : List DbEvent) :
    ∀ i : Nat, settleAt h evs = some (i, Settled.resolved) →
      evs[i]? = some h.resolveOn := by
  induction evs with
  | nil => intro i hi; cases hi
  | cons e rest ih =>
      intro i hi
      by_cases he : e = h.resolveOn
      · simp only [settleAt, if_pos he, Option.some.injEq, Prod.mk.injEq] at hi
        rw [← hi.1]
        simp [he]
      · by_cases hr : e = h.rejectOn
        · simp only [settleAt, if_neg he, if_pos hr, Option.some.injEq,
            Prod.mk.injEq] at hi
          cases hi.2
        · cases hres : settleAt h rest with
          | none =>
              simp only [settleAt, if_neg he, if_neg hr, hres] at hi
              cases hi
          | some pr =>
              obtain ⟨j, w⟩ := pr
              simp only [settleAt, if_neg he, if_neg hr, hres, Option.some.injEq,
                Prod.mk.injEq] at hi
              obtain ⟨hj, hw⟩ := hi
              subst hw
              rw [← hj]
              simpa using ih j hres

/-- Counterexample to claim C5: on one successful operation the engine fires
request success (index 0) strictly before transaction complete (index 1), and
the promise of `getStoreValue` settles — resolved — already at index 0, on
request success, not on transaction completion. -/
theorem claim_C5_counterexample :
    settleAt getStoreValueHandlers successTrace = some (0, Settled.resolved) ∧
    successTrace[0]? = some DbEvent.requestSuccess ∧
    successTrace[1]? = some DbEvent.transactionComplete := by
  refine ⟨rfl, rfl, rfl⟩

/-- Claim C5 as amended: `setStoreValue` resolves only on the transaction
complete event, while `getStoreValue` resolves on the request success event
(hence, in a successful operation, before the transaction completes). -/
theorem claim_C5_amended_settlement :
    (∀ (evs : List DbEvent) (i : Nat),
        settleAt setStoreValueHandlers evs = some (i, Settled.resolved) →
        evs[i]? = some DbEvent.transactionComplete) ∧
    (∀ (evs : List DbEvent) (i : Nat),
        settleAt getStoreValueHandlers evs = some (i, Settled.resolved) →
        evs[i]? = some DbEvent.requestSuccess) :=
  ⟨fun t i ht => settleAt_resolved_event setStoreValueHandlers t i ht,
   fun t i ht => settleAt_resolved_event getStoreValueHandlers t i ht⟩

/-- Witness for the amended C5 on the success trace: `setStoreValue` settles
at index 1 (transaction complete), `getStoreValue` at index 0 (request
success). -/
theorem claim_C5_amended_settlement_witness :
    successTrace[1]? = some DbEvent.transactionComplete ∧
    successTrace[0]? = some DbEvent.requestSuccess :=
  ⟨claim_C5_amended_settlement.1 successTrace 1 (by decide),
   claim_C5_amended_settlement.2 successTrace 0 (by decide)⟩

/-- Claim C7 refuted by the code: the executor of the promise returned by
`transaction()` calls `resolve(transaction)` synchronously, before the event
loop can dispatch any abort or error event, and a promise keeps its first
settlement — so the caller always receives the resolved transaction and never
observes a TransactionAborted or TransactionError rejection, whatever
transaction events follow (in particular when the browser aborts it). -/
theorem claim_C7_promise_always_resolves :
    ∀ events : List DbEvent, txOutcome events = some TxPromiseAction.resolveTx :=
  fun _ => rfl

/-! ## Claims about schema upgrades -/

/-- The upgrade handler leaves the version field alone. -/
theorem upgradeAddStore_version (name : String) (b : BackingDb) :
    (upgradeAddStore name b).version = b.version := by
  unfold upgradeAddStore
  split <;> rfl

/-- After the upgrade handler runs, the store is present. -/
theorem mem_upgradeAddStore (name : String) (b : BackingDb) :
    name ∈ (upgradeAddStore name b).stores := by
  unfold upgradeAddStore
  split
  · assumption
  · exact List.mem_cons_self _ _

/-- Claim C6: with a connection open (handle in sync with the on-disk state),
`createObjectStore` succeeds, the database version strictly increases by
exactly 1 — whether or not the store already existed — the store is present
afterwards, and the refreshed connection is stored. -/
theorem claim_C6_version_bump (s : MgrState) (name : String)
    (h : s.db = some s.backing) :
    ∃ s', createObjectStore name s = Except.ok s' ∧
      s'.backing.version = s.backing.version + 1 ∧
      name ∈ s'.backing.stores ∧
      s'.db = some s'.backing := by
  have hopen : openWithVersion (upgradeAddStore name) (s.backing.version + 1)
      s.backing =
      Except.ok { upgradeAddStore name s.backing with
                    version := s.backing.version + 1 } := by
    unfold openWithVersion
    rw [if_neg (by omega), if_pos (by omega)]
  have heq : createObjectStore name s =
      Except.ok
        { db := some { upgradeAddStore name s.backing with
                         version := s.backing.version + 1 },
          backing := { upgradeAddStore name s.backing with
                         version := s.backing.version + 1 } } := by
    unfold createObjectStore
    rw [h]
    show (match openWithVersion (upgradeAddStore name) (s.backing.version + 1)
            s.backing with
          | Except.error e => Except.error e
          | Except.ok b => Except.ok ({ db := some b, backing := b } : MgrState)) = _
    rw [hopen]
  exact ⟨_, heq, rfl, mem_upgradeAddStore name s.backing, rfl⟩

/-- Witness for C6 at `demoMgr`, whose database already contains
`userPreferences` at version 2: the call still succeeds, bumps the version to
3, and the store remains present. -/
theorem claim_C6_version_bump_witness :
    ∃ s', createObjectStore "userPreferences" demoMgr = Except.ok s' ∧
      s'.backing.version = demoMgr.backing.version + 1 ∧
      "userPreferences" ∈ s'.backing.stores ∧
      s'.db = some s'.backing :=
  claim_C6_version_bump demoMgr "userPreferences" rfl

/-! ## Claims about store-manager construction -/

/-- Claim C10: constructing a store manager with an absent or empty username
throws `'Username is required'`; `getInstance` with such a username also
fails (the cache only ever holds instances whose username is non-empty, so no
cached instance can match); and every successfully constructed instance
carries a non-empty owner key. -/
theorem claim_C10_username_required :
    (∀ u : Option String, jsFalsy u = true →
        mkStoreManager u = Except.error "Username is required") ∧
    (∀ (cached : Option UPSM) (u : Option String),
        (∀ m : UPSM, cached = some m → m.username.isEmpty = false) →
        jsFalsy u = true →
        getInstanceUPSM cached u = Except.error "Username is required") ∧
    (∀ (u : Option String) (m : UPSM),
        mkStoreManager u = Except.ok m → m.username.isEmpty = false) := by
  have hmk : ∀ u : Option String, jsFalsy u = true →
      mkStoreManager u = Except.error "Username is required" := by
    intro u hu
    unfold mkStoreManager
    rw [if_pos hu]
  refine ⟨hmk, ?_, ?_⟩
  · intro cached u hc hu
    cases cached with
    | none => exact hmk u hu
    | some m =>
        have hm := hc m rfl
        have hne : ¬ u = some m.username := fun he => by
          rw [he] at hu
          have hempty : m.username.isEmpty = true := hu
          rw [hm] at hempty
          cases hempty
        show (if u = some m.username then Except.ok m else mkStoreManager u) =
          Except.error "Username is required"
        rw [if_neg hne]
        exact hmk u hu
  · intro u m hm
    cases u with
    | none => simp [mkStoreManager, jsFalsy] at hm
    | some sName =>
        by_cases hs : sName.isEmpty = true
        · simp [mkStoreManager, jsFalsy, hs] at hm
        · simp [mkStoreManager, jsFalsy, hs] at hm
          rw [← hm]
          simpa using hs

/-- Witness for C10: the empty-string and absent usernames both fail. -/
theorem claim_C10_username_required_witness :
    mkStoreManager (some "") = Except.error "Username is required" ∧
    getInstanceUPSM none none = Except.error "Username is required" :=
  ⟨claim_C10_username_required.1 (some "") rfl,
   claim_C10_username_required.2.1 none none (fun m hm => by cases hm) rfl⟩

end IDB
